import Mathlib

/-!
Verification of the ANT+ bike speed/cadence decoder
(`src/ant/plus/speed_cadence.py`).

The decoder classes `BikeSpeed`, `BikeCadence` and `SpeedCadence` each keep
two-slot rolling histories (Python `deque([0, 0], maxlen=2)`) of 16-bit event
times and cumulative revolution counts, and compute speed (km/h), distance (m)
and cadence (RPM) from wraparound-aware deltas.  We embed the state as explicit
structures, the page as eight byte fields, and the measurement formulas over
exact rationals (Python floats are modelled by `ℚ`; the spec's expected values
are decimal-exact).
-/

namespace SpeedCadencePy

/-- Modelled from the spec: `wrapDifference` is a method of the `DeviceProfile`
base class defined in `plus.py`, which is not among the sources (only its
callers in `speed_cadence.py` are).  The spec gives
`wrap_diff(new, old) = (new - old) mod M`; Python's `%` on a positive modulus
returns a value in `[0, M)`, which matches `Int.emod`. -/
def wrapDifference (n o m : Int) : Int :=
  (n - o) % m

/-- A two-slot rolling history, embedding `deque([0, 0], maxlen=2)`:
index 0 is the older sample, index 1 the newer. -/
structure CounterPair where
  older : Nat
  newer : Nat
deriving DecidableEq, Repr

/-- Appending to a `maxlen=2` deque evicts the oldest element. -/
def CounterPair.push (p : CounterPair) (x : Nat) : CounterPair :=
  ⟨p.newer, x⟩

/-- The freshly constructed history `deque([0, 0], maxlen=2)`. -/
def CounterPair.start : CounterPair :=
  ⟨0, 0⟩

/-- An 8-byte ANT+ broadcast page, one field per byte of `data`. -/
structure Page where
  b0 : Nat
  b1 : Nat
  b2 : Nat
  b3 : Nat
  b4 : Nat
  b5 : Nat
  b6 : Nat
  b7 : Nat
deriving DecidableEq, Repr

/-- Little-endian 16-bit read, embedding
`int.from_bytes(data[i:i+2], byteorder='little')`. -/
def le16 (lo hi : Nat) : Nat :=
  lo + 256 * hi

/-- The page-toggle tracking fields `_page_toggle_observed` (a `Bool`) and
`_page_toggle` (`None` until the first page is seen). -/
structure ToggleState where
  observed : Bool
  toggle : Option Nat
deriving DecidableEq, Repr

/-- The toggle-tracking step shared verbatim by `BikeSpeed.processData`
(lines 76-81) and `BikeCadence.processData` (lines 157-162):
while not observed, record the first toggle bit, and latch `observed` on the
first differing bit. -/
def ToggleState.update (t : ToggleState) (b : Nat) : ToggleState :=
  if t.observed then t
  else
    match t.toggle with
    | none => { t with toggle := some b }
    | some x => if x ≠ b then { t with observed := true } else t

/-- Embeds `calculate_speed` (identical bodies in `BikeSpeed` lines 96-111 and
`SpeedCadence` lines 256-271) as a function of the two histories and the wheel
circumference. -/
def calculate_speed (rev et : CounterPair) (wheel_circumference : ℚ) : Option ℚ :=
  if rev.older = 0 then none
  else if et.older = 0 then none
  else
    let delta_rev_count : Int := wrapDifference rev.newer rev.older 65536
    let delta_event_time : Int := wrapDifference et.newer et.older 65536
    if delta_event_time > 0 then
      some ((wheel_circumference * (delta_rev_count : ℚ) * 1024) / (delta_event_time : ℚ) * 3.6)
    else
      none

/-- Embeds `calculate_distance` (identical bodies in `BikeSpeed` lines 113-122
and `SpeedCadence` lines 273-282); it reads only the revolution history. -/
def calculate_distance (rev : CounterPair) (wheel_circumference : ℚ) : Option ℚ :=
  if rev.older = 0 then none
  else
    let delta_rev_count : Int := wrapDifference rev.newer rev.older 65536
    some (wheel_circumference * (delta_rev_count : ℚ))

/-- Embeds `calculate_cadence` (identical bodies in `BikeCadence` lines 175-190
and `SpeedCadence` lines 284-299). -/
def calculate_cadence (rev et : CounterPair) : Option ℚ :=
  if rev.older = 0 then none
  else if et.older = 0 then none
  else
    let delta_rev_count : Int := wrapDifference rev.newer rev.older 65536
    let delta_event_time : Int := wrapDifference et.newer et.older 65536
    if delta_event_time > 0 then
      some ((60 * (delta_rev_count : ℚ) * 1024) / (delta_event_time : ℚ))
    else
      none

/-- The mutable state of a `BikeSpeed` decoder relevant to the measurements:
wheel circumference, the two histories, and the toggle tracking fields. -/
structure BikeSpeedState where
  wheel_circumference : ℚ
  bike_speed_event_time : CounterPair
  cumulative_speed_revolution : CounterPair
  page_toggle : ToggleState
deriving DecidableEq, Repr

/-- The state set up by `BikeSpeed.__init__`: both histories `(0, 0)`,
toggle unobserved, toggle bit not yet recorded. -/
def BikeSpeedState.start (wheel_circumference : ℚ) : BikeSpeedState :=
  ⟨wheel_circumference, .start, .start, ⟨false, none⟩⟩

/-- Embeds `BikeSpeed.processData` (lines 70-93): track the toggle bit
(`data[0] >> 7`), append `data[4:6]` to the event-time history and `data[6:8]`
to the revolution history, then compute speed and distance; the pair handed to
the `onSpeedData` callback is returned alongside the new state. -/
def BikeSpeedState.processData (s : BikeSpeedState) (d : Page) :
    BikeSpeedState × (Option ℚ × Option ℚ) :=
  let page_toggle := d.b0 >>> 7
  let t := s.page_toggle.update page_toggle
  let et := s.bike_speed_event_time.push (le16 d.b4 d.b5)
  let rev := s.cumulative_speed_revolution.push (le16 d.b6 d.b7)
  let speed := calculate_speed rev et s.wheel_circumference
  let distance := calculate_distance rev s.wheel_circumference
  ({ s with
      page_toggle := t
      bike_speed_event_time := et
      cumulative_speed_revolution := rev },
    (speed, distance))

/-- The mutable state of a `BikeCadence` decoder relevant to the measurements. -/
structure BikeCadenceState where
  bike_cadence_event_time : CounterPair
  cumulative_cadence_revolution : CounterPair
  page_toggle : ToggleState
deriving DecidableEq, Repr

/-- The state set up by `BikeCadence.__init__`. -/
def BikeCadenceState.start : BikeCadenceState :=
  ⟨.start, .start, ⟨false, none⟩⟩

/-- Embeds `BikeCadence.processData` (lines 151-174): track the toggle bit,
append `data[4:6]` and `data[6:8]`, then compute the cadence handed to the
`onCadenceData` callback. -/
def BikeCadenceState.processData (s : BikeCadenceState) (d : Page) :
    BikeCadenceState × Option ℚ :=
  let page_toggle := d.b0 >>> 7
  let t := s.page_toggle.update page_toggle
  let et := s.bike_cadence_event_time.push (le16 d.b4 d.b5)
  let rev := s.cumulative_cadence_revolution.push (le16 d.b6 d.b7)
  let cadence := calculate_cadence rev et
  ({ s with
      page_toggle := t
      bike_cadence_event_time := et
      cumulative_cadence_revolution := rev },
    cadence)

/-- The mutable state of a combined `SpeedCadence` decoder: four histories and
the wheel circumference (this class keeps no toggle fields). -/
structure SpeedCadenceState where
  wheel_circumference : ℚ
  bike_cadence_event_time : CounterPair
  cumulative_cadence_revolution : CounterPair
  bike_speed_event_time : CounterPair
  cumulative_speed_revolution : CounterPair
deriving DecidableEq, Repr

/-- The state set up by `SpeedCadence.__init__`: all four histories `(0, 0)`. -/
def SpeedCadenceState.start (wheel_circumference : ℚ) : SpeedCadenceState :=
  ⟨wheel_circumference, .start, .start, .start, .start⟩

/-- Embeds `SpeedCadence.processData` (lines 223-254): a page is accepted only
when `data[0] & 0x0F <= 5`; cadence fields are read from `data[0:2]`/`data[2:4]`
and speed fields from `data[4:6]`/`data[6:8]`.  `none` as second component
means the page was ignored (no state change, no callback); otherwise the
emitted payloads are `((speed, distance), cadence)`. -/
def SpeedCadenceState.processData (s : SpeedCadenceState) (d : Page) :
    SpeedCadenceState × Option ((Option ℚ × Option ℚ) × Option ℚ) :=
  if d.b0 &&& 0x0F ≤ 5 then
    let cadEt := s.bike_cadence_event_time.push (le16 d.b0 d.b1)
    let cadRev := s.cumulative_cadence_revolution.push (le16 d.b2 d.b3)
    let spdEt := s.bike_speed_event_time.push (le16 d.b4 d.b5)
    let spdRev := s.cumulative_speed_revolution.push (le16 d.b6 d.b7)
    let speed := calculate_speed spdRev spdEt s.wheel_circumference
    let distance := calculate_distance spdRev s.wheel_circumference
    let cadence := calculate_cadence cadRev cadEt
    ({ s with
        bike_cadence_event_time := cadEt
        cumulative_cadence_revolution := cadRev
        bike_speed_event_time := spdEt
        cumulative_speed_revolution := spdRev },
      some ((speed, distance), cadence))
  else
    (s, none)

/-- A page whose toggle bit (byte 0 bit 7) is 0 and whose data bytes are all 0. -/
def pageT0 : Page :=
  ⟨0, 0, 0, 0, 0, 0, 0, 0⟩

/-- A page whose toggle bit (byte 0 bit 7) is 1 and whose data bytes are all 0. -/
def pageT1 : Page :=
  ⟨128, 0, 0, 0, 0, 0, 0, 0⟩

/-- C1: for 16-bit `old` and `new`, `wrapDifference new old 65536` equals
`(new - old + 65536) % 65536`, always lies in `[0, 65536)`, and
`wrapDifference 5 65530 65536 = 11`. -/
theorem wrapDifference_u16_spec (o n : Int)
    (ho₀ : 0 ≤ o) (ho : o < 65536) (hn₀ : 0 ≤ n) (hn : n < 65536) :
    wrapDifference n o 65536 = (n - o + 65536) % 65536 ∧
    0 ≤ wrapDifference n o 65536 ∧
    wrapDifference n o 65536 < 65536 ∧
    wrapDifference 5 65530 65536 = 11 := by
  unfold wrapDifference
  refine ⟨?_, ?_, ?_, by decide⟩
  · omega
  · omega
  · omega

/-- Witness for C1 at `old = 65530`, `new = 5`. -/
theorem wrapDifference_u16_spec_witness :
    wrapDifference 5 65530 65536 = (5 - 65530 + 65536) % 65536 ∧
    0 ≤ wrapDifference 5 65530 65536 ∧
    wrapDifference 5 65530 65536 < 65536 ∧
    wrapDifference 5 65530 65536 = 11 :=
  wrapDifference_u16_spec 65530 5 (by decide) (by decide) (by decide) (by decide)

/-- C2: when the older revolution slot and older event-time slot are both
nonzero and the event-time delta is positive, `calculate_speed` returns
`wheel_circumference * delta_rev * 1024 / delta_time * 3.6`; it returns `none`
whenever the delta is non-positive or either older slot is still the
sentinel 0. -/
theorem calculate_speed_spec (rev et : CounterPair) (wc : ℚ) :
    (rev.older ≠ 0 → et.older ≠ 0 →
      0 < wrapDifference et.newer et.older 65536 →
      calculate_speed rev et wc =
        some ((wc * (wrapDifference rev.newer rev.older 65536 : ℚ) * 1024) /
          (wrapDifference et.newer et.older 65536 : ℚ) * 3.6)) ∧
    (rev.older = 0 ∨ et.older = 0 ∨ wrapDifference et.newer et.older 65536 ≤ 0 →
      calculate_speed rev et wc = none) := by
  unfold calculate_speed
  constructor
  · intro hr he hdt
    simp [hr, he, hdt]
  · intro h
    rcases eq_or_ne rev.older 0 with hr | hr
    · simp [hr]
    · rcases eq_or_ne et.older 0 with he | he
      · simp [hr, he]
      · have hdt : ¬ wrapDifference et.newer et.older 65536 > 0 := by
          rcases h with h | h | h
          · exact absurd h hr
          · exact absurd h he
          · exact not_lt.mpr h
        simp [hr, he, hdt]

/-- Witness for C2: revolution history `(1, 2)`, event-time history
`(100, 612)` give delta 1 over 512 ticks; a zeroed older revolution slot gives
`none`. -/
theorem calculate_speed_spec_witness :
    calculate_speed ⟨1, 2⟩ ⟨100, 612⟩ 2 =
      some ((2 * (wrapDifference 2 1 65536 : ℚ) * 1024) /
        (wrapDifference 612 100 65536 : ℚ) * 3.6) ∧
    calculate_speed ⟨0, 2⟩ ⟨100, 612⟩ 2 = none :=
  ⟨(calculate_speed_spec ⟨1, 2⟩ ⟨100, 612⟩ 2).1 (by decide) (by decide) (by decide),
   (calculate_speed_spec ⟨0, 2⟩ ⟨100, 612⟩ 2).2 (Or.inl rfl)⟩

/-- C3: when the older cadence slots are both nonzero and the event-time delta
is positive, `calculate_cadence` returns `60 * delta_rev * 1024 / delta_time`,
and `none` otherwise; a 512-tick delta with one revolution yields 120 RPM. -/
theorem calculate_cadence_spec (rev et : CounterPair) :
    (rev.older ≠ 0 → et.older ≠ 0 →
      0 < wrapDifference et.newer et.older 65536 →
      calculate_cadence rev et =
        some ((60 * (wrapDifference rev.newer rev.older 65536 : ℚ) * 1024) /
          (wrapDifference et.newer et.older 65536 : ℚ))) ∧
    (rev.older = 0 ∨ et.older = 0 ∨ wrapDifference et.newer et.older 65536 ≤ 0 →
      calculate_cadence rev et = none) ∧
    calculate_cadence ⟨1, 2⟩ ⟨100, 612⟩ = some 120 := by
  refine ⟨?_, ?_, ?_⟩
  · intro hr he hdt
    unfold calculate_cadence
    simp [hr, he, hdt]
  · intro h
    unfold calculate_cadence
    rcases eq_or_ne rev.older 0 with hr | hr
    · simp [hr]
    · rcases eq_or_ne et.older 0 with he | he
      · simp [hr, he]
      · have hdt : ¬ wrapDifference et.newer et.older 65536 > 0 := by
          rcases h with h | h | h
          · exact absurd h hr
          · exact absurd h he
          · exact not_lt.mpr h
        simp [hr, he, hdt]
  · unfold calculate_cadence wrapDifference
    norm_num

/-- Witness for C3: the 120 RPM scenario, and `none` on a sentinel older
slot. -/
theorem calculate_cadence_spec_witness :
    calculate_cadence ⟨1, 2⟩ ⟨100, 612⟩ =
      some ((60 * (wrapDifference 2 1 65536 : ℚ) * 1024) /
        (wrapDifference 612 100 65536 : ℚ)) ∧
    calculate_cadence ⟨0, 2⟩ ⟨100, 612⟩ = none :=
  ⟨(calculate_cadence_spec ⟨1, 2⟩ ⟨100, 612⟩).1 (by decide) (by decide) (by decide),
   ((calculate_cadence_spec ⟨0, 2⟩ ⟨100, 612⟩).2.1 (Or.inl rfl))⟩

/-- C10: `calculate_distance` is `none` exactly when the older revolution slot
is 0; it takes no event-time argument at all, so with a nonzero older
revolution slot it returns `wheel_circumference * delta_rev` even where
`calculate_speed` is `none` because the older event-time slot is 0; and a
duplicate page (equal revolution slots) yields the numeric value 0, not
`none`. -/
theorem calculate_distance_spec (rev et : CounterPair) (wc : ℚ) :
    (calculate_distance rev wc = none ↔ rev.older = 0) ∧
    (rev.older ≠ 0 →
      calculate_distance rev wc =
        some (wc * (wrapDifference rev.newer rev.older 65536 : ℚ))) ∧
    (rev.older ≠ 0 → et.older = 0 →
      calculate_speed rev et wc = none ∧ calculate_distance rev wc ≠ none) ∧
    (∀ k : Nat, k ≠ 0 → calculate_distance ⟨k, k⟩ wc = some 0) := by
  refine ⟨?_, ?_, ?_, ?_⟩
  · unfold calculate_distance
    split <;> simp_all
  · intro hr
    unfold calculate_distance
    simp [hr]
  · intro hr he
    constructor
    · unfold calculate_speed
      simp [hr, he]
    · unfold calculate_distance
      simp [hr]
  · intro k hk
    unfold calculate_distance wrapDifference
    simp [hk]

/-- Witness for C10: concrete instances of each conjunct at revolution history
`(7, 9)`, event-time history `(0, 50)`, circumference 2. -/
theorem calculate_distance_spec_witness :
    (calculate_distance ⟨7, 9⟩ 2 = none ↔ (7 : Nat) = 0) ∧
    calculate_distance ⟨7, 9⟩ 2 = some (2 * (wrapDifference 9 7 65536 : ℚ)) ∧
    (calculate_speed ⟨7, 9⟩ ⟨0, 50⟩ 2 = none ∧ calculate_distance ⟨7, 9⟩ 2 ≠ none) ∧
    calculate_distance ⟨7, 7⟩ 2 = some 0 :=
  ⟨(calculate_distance_spec ⟨7, 9⟩ ⟨0, 50⟩ 2).1,
   (calculate_distance_spec ⟨7, 9⟩ ⟨0, 50⟩ 2).2.1 (by decide),
   (calculate_distance_spec ⟨7, 9⟩ ⟨0, 50⟩ 2).2.2.1 (by decide) rfl,
   (calculate_distance_spec ⟨7, 7⟩ ⟨0, 50⟩ 2).2.2.2 7 (by decide)⟩

/-- C4 counterexample: the sentinel guards inspect only the OLDER slot.  In
the state with revolution history `(5, 0)` (newer slot 0) and event-time
history `(100, 200)`, `calculate_speed` returns a numeric value, not `none`,
refuting the claim that a zero in either held slot forces every measurement
absent. -/
theorem sentinel_guard_counterexample :
    CounterPair.newer ⟨5, 0⟩ = 0 ∧
    calculate_speed ⟨5, 0⟩ ⟨100, 200⟩ 1 ≠ none := by
  refine ⟨rfl, ?_⟩
  unfold calculate_speed wrapDifference
  norm_num
  exact Option.some_ne_none _

/-- C4 amended: when the OLDER slot's revolution count or event time is 0,
speed and cadence are absent, and distance is absent whenever the older
revolution count is 0 (`calculate_distance` never reads event times); the
newer slot is not inspected by any guard. -/
theorem older_sentinel_absent (rev et : CounterPair) (wc : ℚ)
    (h : rev.older = 0 ∨ et.older = 0) :
    calculate_speed rev et wc = none ∧
    calculate_cadence rev et = none ∧
    (rev.older = 0 → calculate_distance rev wc = none) := by
  refine ⟨?_, ?_, ?_⟩
  · unfold calculate_speed
    rcases h with h | h
    · simp [h]
    · rcases eq_or_ne rev.older 0 with hr | hr
      · simp [hr]
      · simp [hr, h]
  · unfold calculate_cadence
    rcases h with h | h
    · simp [h]
    · rcases eq_or_ne rev.older 0 with hr | hr
      · simp [hr]
      · simp [hr, h]
  · intro hr
    unfold calculate_distance
    simp [hr]

/-- Witness for the amended C4 at revolution history `(0, 9)`, event-time
history `(7, 50)`. -/
theorem older_sentinel_absent_witness :
    calculate_speed ⟨0, 9⟩ ⟨7, 50⟩ 1 = none ∧
    calculate_cadence ⟨0, 9⟩ ⟨7, 50⟩ = none ∧
    ((0 : Nat) = 0 → calculate_distance ⟨0, 9⟩ 1 = none) :=
  older_sentinel_absent ⟨0, 9⟩ ⟨7, 50⟩ 1 (Or.inl rfl)

/-- C5 counterexample: with wheel circumference 2.105, a first page carrying
`(event_time 0, revolutions 0)` and a second carrying
`(event_time 1024, revolutions 1)`, the second call still emits
`(none, none)` — not speed 7.578 and distance 2.105 as claimed — because the
older slots now hold the first sample's zeros, which the guards treat as the
sentinel. -/
theorem known_value_scenario_counterexample :
    (((BikeSpeedState.start 2.105).processData ⟨0, 0, 0, 0, 0, 0, 0, 0⟩).1.processData
        ⟨0, 0, 0, 0, 0, 4, 1, 0⟩).2 = (none, none) := by
  rfl

/-- C5 amended: the `(1024, 1)` sample yields absent speed and distance
(the older slots still hold the sentinel zeros of the first sample); only a
third sample `(event_time 2048, revolutions 2)` yields distance 2.105 m and
speed `2.105 * 1 * 1024 / 1024 * 3.6 = 7.578` km/h. -/
theorem known_value_scenario_amended :
    (((BikeSpeedState.start 2.105).processData ⟨0, 0, 0, 0, 0, 0, 0, 0⟩).1.processData
        ⟨0, 0, 0, 0, 0, 4, 1, 0⟩).2 = (none, none) ∧
    ((((BikeSpeedState.start 2.105).processData ⟨0, 0, 0, 0, 0, 0, 0, 0⟩).1.processData
        ⟨0, 0, 0, 0, 0, 4, 1, 0⟩).1.processData ⟨0, 0, 0, 0, 0, 8, 2, 0⟩).2 =
      (some 7.578, some 2.105) := by
  constructor
  · rfl
  · norm_num [BikeSpeedState.start, BikeSpeedState.processData, CounterPair.start,
      CounterPair.push, le16, calculate_speed, calculate_distance, wrapDifference,
      ToggleState.update]

/-- C6: the very first `processData` call on a freshly constructed decoder
emits absent speed, distance and cadence, for every page (for the combined
decoder, for every accepted page). -/
theorem first_process_absent (wc : ℚ) (d : Page) :
    ((BikeSpeedState.start wc).processData d).2 = (none, none) ∧
    (BikeCadenceState.start.processData d).2 = none ∧
    (d.b0 &&& 0x0F ≤ 5 →
      ((SpeedCadenceState.start wc).processData d).2 = some ((none, none), none)) := by
  refine ⟨?_, ?_, fun h => ?_⟩
  · simp [BikeSpeedState.start, BikeSpeedState.processData, CounterPair.start,
      CounterPair.push, calculate_speed, calculate_distance]
  · simp [BikeCadenceState.start, BikeCadenceState.processData, CounterPair.start,
      CounterPair.push, calculate_cadence]
  · simp [SpeedCadenceState.start, SpeedCadenceState.processData, h,
      CounterPair.start, CounterPair.push, calculate_speed, calculate_distance,
      calculate_cadence]

/-- Witness for C6 at wheel circumference 1 and the all-zero page. -/
theorem first_process_absent_witness :
    ((BikeSpeedState.start 1).processData pageT0).2 = (none, none) ∧
    (BikeCadenceState.start.processData pageT0).2 = none ∧
    ((SpeedCadenceState.start 1).processData pageT0).2 = some ((none, none), none) :=
  ⟨(first_process_absent 1 pageT0).1,
   (first_process_absent 1 pageT0).2.1,
   (first_process_absent 1 pageT0).2.2 (by decide)⟩

/-- Helper for the duplicate-page guard: with equal event-time slots the speed
formula's time delta is 0, so the result is `none` whichever guard fires. -/
theorem calculate_speed_equal_times (rev : CounterPair) (T : Nat) (wc : ℚ) :
    calculate_speed rev ⟨T, T⟩ wc = none := by
  unfold calculate_speed
  rcases eq_or_ne rev.older 0 with hr | hr
  · simp [hr]
  · rcases eq_or_ne T 0 with hT | hT
    · simp [hr, hT]
    · have hdt : wrapDifference T T 65536 = 0 := by simp [wrapDifference]
      simp [hr, hT, hdt]

/-- Helper for the duplicate-page guard, cadence side. -/
theorem calculate_cadence_equal_times (rev : CounterPair) (T : Nat) :
    calculate_cadence rev ⟨T, T⟩ = none := by
  unfold calculate_cadence
  rcases eq_or_ne rev.older 0 with hr | hr
  · simp [hr]
  · rcases eq_or_ne T 0 with hT | hT
    · simp [hr, hT]
    · have hdt : wrapDifference T T 65536 = 0 := by simp [wrapDifference]
      simp [hr, hT, hdt]

/-- C7: processing the same page twice in a row leaves both event-time slots
equal, so the second call's wraparound time delta is 0 and its speed and
cadence are absent; for the combined decoder the same holds on accepted
pages (its emitted speed and cadence are `none`, only distance may carry a
number). -/
theorem duplicate_page_guard (s : BikeSpeedState) (c : BikeCadenceState)
    (u : SpeedCadenceState) (d : Page) :
    (wrapDifference (((s.processData d).1.processData d).1.bike_speed_event_time.newer)
        (((s.processData d).1.processData d).1.bike_speed_event_time.older) 65536 = 0 ∧
      (((s.processData d).1.processData d).2).1 = none) ∧
    (wrapDifference (((c.processData d).1.processData d).1.bike_cadence_event_time.newer)
        (((c.processData d).1.processData d).1.bike_cadence_event_time.older) 65536 = 0 ∧
      ((c.processData d).1.processData d).2 = none) ∧
    (d.b0 &&& 0x0F ≤ 5 →
      ∃ out, ((u.processData d).1.processData d).2 = some out ∧
        out.1.1 = none ∧ out.2 = none) := by
  refine ⟨⟨?_, ?_⟩, ⟨?_, ?_⟩, fun h => ?_⟩
  · simp [BikeSpeedState.processData, CounterPair.push, wrapDifference]
  · simp [BikeSpeedState.processData, CounterPair.push,
      calculate_speed_equal_times]
  · simp [BikeCadenceState.processData, CounterPair.push, wrapDifference]
  · simp [BikeCadenceState.processData, CounterPair.push,
      calculate_cadence_equal_times]
  · simp [SpeedCadenceState.processData, h, CounterPair.push,
      calculate_speed_equal_times, calculate_cadence_equal_times]

/-- Witness for C7 at fresh decoder states and the all-zero page (nibble 0). -/
theorem duplicate_page_guard_witness :
    (wrapDifference
        ((((BikeSpeedState.start 1).processData pageT0).1.processData
          pageT0).1.bike_speed_event_time.newer)
        ((((BikeSpeedState.start 1).processData pageT0).1.processData
          pageT0).1.bike_speed_event_time.older) 65536 = 0 ∧
      ((((BikeSpeedState.start 1).processData pageT0).1.processData pageT0).2).1 =
        none) ∧
    (wrapDifference
        (((BikeCadenceState.start.processData pageT0).1.processData
          pageT0).1.bike_cadence_event_time.newer)
        (((BikeCadenceState.start.processData pageT0).1.processData
          pageT0).1.bike_cadence_event_time.older) 65536 = 0 ∧
      ((BikeCadenceState.start.processData pageT0).1.processData pageT0).2 = none) ∧
    (∃ out, (((SpeedCadenceState.start 1).processData pageT0).1.processData
        pageT0).2 = some out ∧ out.1.1 = none ∧ out.2 = none) :=
  ⟨(duplicate_page_guard (BikeSpeedState.start 1) BikeCadenceState.start
      (SpeedCadenceState.start 1) pageT0).1,
   (duplicate_page_guard (BikeSpeedState.start 1) BikeCadenceState.start
      (SpeedCadenceState.start 1) pageT0).2.1,
   (duplicate_page_guard (BikeSpeedState.start 1) BikeCadenceState.start
      (SpeedCadenceState.start 1) pageT0).2.2 (by decide)⟩

/-- C8: a combined-decoder page whose byte 0 low nibble exceeds 5 leaves the
state (all four counter histories) untouched and emits nothing; a page with
nibble at most 5 is accepted, reading cadence fields from bytes `[0:2)`/`[2:4)`
and speed fields from bytes `[4:6)`/`[6:8)`, and emits a callback payload. -/
theorem nibble_filter (s : SpeedCadenceState) (d : Page) :
    (5 < d.b0 &&& 0x0F → s.processData d = (s, none)) ∧
    (d.b0 &&& 0x0F ≤ 5 →
      (s.processData d).1.bike_cadence_event_time =
        s.bike_cadence_event_time.push (le16 d.b0 d.b1) ∧
      (s.processData d).1.cumulative_cadence_revolution =
        s.cumulative_cadence_revolution.push (le16 d.b2 d.b3) ∧
      (s.processData d).1.bike_speed_event_time =
        s.bike_speed_event_time.push (le16 d.b4 d.b5) ∧
      (s.processData d).1.cumulative_speed_revolution =
        s.cumulative_speed_revolution.push (le16 d.b6 d.b7) ∧
      (s.processData d).2 =
        some ((calculate_speed (s.cumulative_speed_revolution.push (le16 d.b6 d.b7))
            (s.bike_speed_event_time.push (le16 d.b4 d.b5)) s.wheel_circumference,
          calculate_distance (s.cumulative_speed_revolution.push (le16 d.b6 d.b7))
            s.wheel_circumference),
          calculate_cadence (s.cumulative_cadence_revolution.push (le16 d.b2 d.b3))
            (s.bike_cadence_event_time.push (le16 d.b0 d.b1)))) := by
  constructor
  · intro h
    have h' : ¬ d.b0 &&& 0x0F ≤ 5 := Nat.not_le.mpr h
    simp [SpeedCadenceState.processData, h']
  · intro h
    simp [SpeedCadenceState.processData, h]

/-- Witness for C8: a page with byte 0 equal to 6 (nibble 6) is dropped from
the fresh state; the all-zero page (nibble 0) is accepted. -/
theorem nibble_filter_witness :
    (SpeedCadenceState.start 1).processData ⟨6, 0, 0, 0, 0, 0, 0, 0⟩ =
      (SpeedCadenceState.start 1, none) ∧
    ((SpeedCadenceState.start 1).processData pageT0).1.bike_cadence_event_time =
      (SpeedCadenceState.start 1).bike_cadence_event_time.push
        (le16 pageT0.b0 pageT0.b1) :=
  ⟨(nibble_filter (SpeedCadenceState.start 1) ⟨6, 0, 0, 0, 0, 0, 0, 0⟩).1 (by decide),
   ((nibble_filter (SpeedCadenceState.start 1) pageT0).2 (by decide)).1⟩

/-- C9: for the dedicated decoders the "toggle observed" flag starts false,
and `processData` latches it: it stays true once true (for any page); while
unobserved with first toggle bit `t` on record, a processed page sets it true
exactly when the incoming toggle bit differs from `t`; and the toggle-bit
sequence 0, 0, 1, 1, 0 has the flag false after the second page, true after
the third, and still true after the fourth and fifth. -/
theorem toggle_latch (wc : ℚ) (d : Page) (s : BikeSpeedState)
    (c : BikeCadenceState) (t : Nat) :
    (BikeSpeedState.start wc).page_toggle.observed = false ∧
    BikeCadenceState.start.page_toggle.observed = false ∧
    (s.page_toggle.observed = true →
      ((s.processData d).1).page_toggle.observed = true) ∧
    (c.page_toggle.observed = true →
      ((c.processData d).1).page_toggle.observed = true) ∧
    (s.page_toggle = ⟨false, some t⟩ →
      (((s.processData d).1).page_toggle.observed = true ↔ t ≠ d.b0 >>> 7)) ∧
    ((((((BikeSpeedState.start wc).processData pageT0).1.processData
        pageT0).1).page_toggle.observed = false) ∧
      ((((((BikeSpeedState.start wc).processData pageT0).1.processData
        pageT0).1.processData pageT1).1).page_toggle.observed = true) ∧
      (((((((BikeSpeedState.start wc).processData pageT0).1.processData
        pageT0).1.processData pageT1).1.processData pageT1).1).page_toggle.observed =
        true) ∧
      ((((((((BikeSpeedState.start wc).processData pageT0).1.processData
        pageT0).1.processData pageT1).1.processData pageT1).1.processData
        pageT0).1).page_toggle.observed = true)) := by
  refine ⟨rfl, rfl, ?_, ?_, ?_, ?_, ?_, ?_, ?_⟩
  · intro h
    simp [BikeSpeedState.processData, ToggleState.update, h]
  · intro h
    simp [BikeCadenceState.processData, ToggleState.update, h]
  · intro h
    rcases eq_or_ne t (d.b0 >>> 7) with htb | htb
    · simp [BikeSpeedState.processData, ToggleState.update, h, htb]
    · simp [BikeSpeedState.processData, ToggleState.update, h, htb]
  · rfl
  · rfl
  · rfl
  · rfl

/-- Witness for C9: latched and unlatched concrete states processed with the
toggle-bit-1 page. -/
theorem toggle_latch_witness :
    (((⟨1, .start, .start, ⟨true, some 0⟩⟩ : BikeSpeedState).processData
      pageT1).1).page_toggle.observed = true ∧
    (((⟨.start, .start, ⟨true, some 0⟩⟩ : BikeCadenceState).processData
      pageT1).1).page_toggle.observed = true ∧
    ((((⟨1, .start, .start, ⟨false, some 0⟩⟩ : BikeSpeedState).processData
      pageT1).1).page_toggle.observed = true ↔ (0 : Nat) ≠ pageT1.b0 >>> 7) :=
  ⟨(toggle_latch 1 pageT1 ⟨1, .start, .start, ⟨true, some 0⟩⟩
      ⟨.start, .start, ⟨true, some 0⟩⟩ 0).2.2.1 rfl,
   (toggle_latch 1 pageT1 ⟨1, .start, .start, ⟨true, some 0⟩⟩
      ⟨.start, .start, ⟨true, some 0⟩⟩ 0).2.2.2.1 rfl,
   (toggle_latch 1 pageT1 ⟨1, .start, .start, ⟨false, some 0⟩⟩
      ⟨.start, .start, ⟨true, some 0⟩⟩ 0).2.2.2.2.1 rfl⟩

end SpeedCadencePy
